import Mathlib

/-!
Verification development for the audio transcription pipeline
(`worker/worker.py` and `api/app.py`).

The worker consumes dispatch messages from a queue, drives a per-job state
machine (queued → downloading → transcribing → generating_note → completed,
with error reachable from the non-terminal states), writes to a Job Store
(DynamoDB `transcription_table`) and a Note Store (`notes_table`), and deletes
the queue message at the end of a processed job.

Modelling decisions, taken from the source:
* Every DynamoDB write in the worker is wrapped in `try/except` that logs and
  continues, so each store write is modelled as fallible, governed by a
  success flag in the environment `WEnv`.
* External effects (S3 download, Whisper transcription, OpenAI call) are
  modelled as oracles in `WEnv`: a success flag plus the produced text or the
  exception message `str(e)`.
* DynamoDB `update_item` has upsert semantics: updating an absent key creates
  the record with only the written attributes.
* Stores are total maps `String → Option record`.
* The result of `process_message` carries an event trace recording, in order,
  the store writes that were applied, the temp-file unlink, and the
  queue `delete_message` call, so that temporal claims can be stated.
-/

/-- Job status values written by the intake service and the worker. -/
inductive JobStatus where
  | queued
  | downloading
  | transcribing
  | generating_note
  | completed
  | error
  deriving DecidableEq, Repr

/-- A record of the Job Store (`transcription_table`). `job_status` is present
in every record: the intake writes `queued` and every worker upsert sets it.
The other attributes are optional, matching DynamoDB items. -/
structure JobRec where
  job_status : JobStatus
  file_name : Option String
  file_path : Option String
  transcription : Option String
  error : Option String
  deriving DecidableEq, Repr

/-- A record of the Note Store (`notes_table`). -/
structure NoteRec where
  diary_note : String
  created_at : Nat
  deriving DecidableEq, Repr

/-- The Job Store, keyed by job identifier. -/
def JobStore : Type := String → Option JobRec

/-- The Note Store, keyed by job identifier. -/
def NoteStore : Type := String → Option NoteRec

/-- The store with no records. -/
def emptyJobs : JobStore := fun _ => none

/-- The note store with no records. -/
def emptyNotes : NoteStore := fun _ => none

/-- DynamoDB update_item with `set job_status = :s` on a possibly absent item:
DynamoDB upsert semantics (merge into the existing item, else create). -/
def jobMergeStatus (r : Option JobRec) (s : JobStatus) : JobRec :=
  match r with
  | some r => { r with job_status := s }
  | none =>
      { job_status := s, file_name := none, file_path := none,
        transcription := none, error := none }

/-- DynamoDB update_item with `set transcription = :t, job_status = :s`
(worker.py line 106, with `:s` always `generating_note`). -/
def jobMergeTx (r : Option JobRec) (tx : String) : JobRec :=
  match r with
  | some r => { r with transcription := some tx,
                       job_status := JobStatus.generating_note }
  | none =>
      { job_status := JobStatus.generating_note, file_name := none,
        file_path := none, transcription := some tx, error := none }

/-- DynamoDB update_item with `set job_status = :s, error = :e`
(worker.py line 146, with `:s` always `error`). -/
def jobMergeErr (r : Option JobRec) (msg : String) : JobRec :=
  match r with
  | some r => { r with job_status := JobStatus.error, error := some msg }
  | none =>
      { job_status := JobStatus.error, file_name := none, file_path := none,
        transcription := none, error := some msg }

/-- Apply a status update to the Job Store at key `jid`. -/
def updStatus (jobs : JobStore) (jid : String) (s : JobStatus) : JobStore :=
  fun k => if k = jid then some (jobMergeStatus (jobs jid) s) else jobs k

/-- Apply the transcription-storing update to the Job Store at key `jid`. -/
def updTx (jobs : JobStore) (jid : String) (tx : String) : JobStore :=
  fun k => if k = jid then some (jobMergeTx (jobs jid) tx) else jobs k

/-- Apply the error update to the Job Store at key `jid`. -/
def updErr (jobs : JobStore) (jid : String) (msg : String) : JobStore :=
  fun k => if k = jid then some (jobMergeErr (jobs jid) msg) else jobs k

/-- The Note Store put_item: full item replacement at key `jid`. -/
def notesPut (notes : NoteStore) (jid : String) (note : String) (now : Nat) :
    NoteStore :=
  fun k => if k = jid then some { diary_note := note, created_at := now }
           else notes k

/-- The fields the worker reads from a parsed message body; `none` models a
key absent from the JSON object (Python raises `KeyError`). -/
structure MsgFields where
  job_id : Option String
  file_path : Option String
  deriving DecidableEq, Repr

/-- A received message body: either unparsable JSON (`json.loads` raises
`json.JSONDecodeError`) or a parsed object. -/
inductive Body where
  | invalidJson
  | json (f : MsgFields)
  deriving DecidableEq, Repr

/-- Environment of one `process_message` run: success flags for each fallible
store write (the code catches and logs their exceptions), oracles for the
external calls, and the clock value used for `created_at`.

Flags, in the order the corresponding operations appear in the code:
`wDownloading` (line 73), `downloadOk` (line 85), `wTranscribing` (line 89),
`transcribeOk` (line 99), `wStoreTx` (line 106), `noteGenOk` (line 195),
`wNotePut` (line 123), `wCompleted` (line 132), `wError` (line 146). -/
structure WEnv where
  wDownloading : Bool
  downloadOk : Bool
  downloadErr : String
  wTranscribing : Bool
  transcribeOk : Bool
  transcribeErr : String
  transcript : String
  wStoreTx : Bool
  noteGenOk : Bool
  noteText : String
  noteGenErr : String
  wNotePut : Bool
  wCompleted : Bool
  wError : Bool
  now : Nat

/-- Events recorded during one `process_message` run, in program order:
Job Store status writes that were applied, the Note Store put, the temp-file
`os.unlink` call, and the queue `delete_message` call. -/
inductive Ev where
  | statusWrite (s : JobStatus)
  | notePut
  | unlinkCall
  | deleteMsg
  deriving DecidableEq, Repr

/-- Result of one `process_message` run: final stores, whether
`delete_message` was called, the Python return value, and the event trace. -/
structure PMRes where
  jobs : JobStore
  notes : NoteStore
  deleted : Bool
  retVal : Bool
  trace : List Ev

/-- Function generate_personal_diary (worker.py lines 181-210): returns the model
output on success; on any exception returns the string
`"Error generating diary note: " ++ str(e)` instead of raising. -/
def generate_personal_diary (env : WEnv) : String :=
  if env.noteGenOk then env.noteText
  else "Error generating diary note: " ++ env.noteGenErr

/-- Function process_message (worker.py lines 42-179) on one received message.
`msg = none` models an empty `receive_message` response.

Control flow, traced from the source:
* unparsable body: `json.JSONDecodeError` is caught at line 171,
  `return False`, no store write, no delete;
* missing `job_id` or `file_path`: `KeyError` is not caught by the
  `except json.JSONDecodeError` clause, escapes to the outer handler at
  line 177, `return False`, no store write, no delete;
* valid body: best-effort status writes, download, transcription, note
  generation, note put and completed write sharing one `try` (lines 122-138,
  so a failed note put skips the completed write), error write on a
  download or transcription exception, `finally` unlink, then
  `delete_message` and `return True`. -/
def process_message (msg : Option Body) (env : WEnv)
    (jobs : JobStore) (notes : NoteStore) : PMRes :=
  match msg with
  | none => ⟨jobs, notes, false, false, []⟩
  | some Body.invalidJson => ⟨jobs, notes, false, false, []⟩
  | some (Body.json f) =>
    match f.job_id, f.file_path with
    | none, _ => ⟨jobs, notes, false, false, []⟩
    | some _, none => ⟨jobs, notes, false, false, []⟩
    | some jid, some _fp =>
      let st1 : JobStore × List Ev :=
        if env.wDownloading then
          (updStatus jobs jid JobStatus.downloading,
           [Ev.statusWrite JobStatus.downloading])
        else (jobs, [])
      if env.downloadOk then
        let st2 : JobStore × List Ev :=
          if env.wTranscribing then
            (updStatus st1.1 jid JobStatus.transcribing,
             st1.2 ++ [Ev.statusWrite JobStatus.transcribing])
          else st1
        if env.transcribeOk then
          let st3 : JobStore × List Ev :=
            if env.wStoreTx then
              (updTx st2.1 jid env.transcript,
               st2.2 ++ [Ev.statusWrite JobStatus.generating_note])
            else st2
          let note := generate_personal_diary env
          if env.wNotePut then
            let notes4 := notesPut notes jid note env.now
            if env.wCompleted then
              ⟨updStatus st3.1 jid JobStatus.completed, notes4, true, true,
               st3.2 ++ [Ev.notePut, Ev.statusWrite JobStatus.completed,
                         Ev.unlinkCall, Ev.deleteMsg]⟩
            else
              ⟨st3.1, notes4, true, true,
               st3.2 ++ [Ev.notePut, Ev.unlinkCall, Ev.deleteMsg]⟩
          else
            ⟨st3.1, notes, true, true,
             st3.2 ++ [Ev.unlinkCall, Ev.deleteMsg]⟩
        else
          if env.wError then
            ⟨updErr st2.1 jid env.transcribeErr, notes, true, true,
             st2.2 ++ [Ev.statusWrite JobStatus.error,
                       Ev.unlinkCall, Ev.deleteMsg]⟩
          else
            ⟨st2.1, notes, true, true, st2.2 ++ [Ev.unlinkCall, Ev.deleteMsg]⟩
      else
        if env.wError then
          ⟨updErr st1.1 jid env.downloadErr, notes, true, true,
           st1.2 ++ [Ev.statusWrite JobStatus.error,
                     Ev.unlinkCall, Ev.deleteMsg]⟩
        else
          ⟨st1.1, notes, true, true, st1.2 ++ [Ev.unlinkCall, Ev.deleteMsg]⟩

/-- A status is terminal when it is `completed` or `error`. -/
def isTerminal (s : JobStatus) : Bool :=
  match s with
  | JobStatus.completed => true
  | JobStatus.error => true
  | _ => false

/-- A body is poisoned when it is unparsable or lacks `job_id` or
`file_path`. -/
def isPoison (b : Body) : Bool :=
  match b with
  | Body.invalidJson => true
  | Body.json f => f.job_id.isNone || f.file_path.isNone


/-! ### API endpoints (api/app.py)

The two read endpoints are modelled as pure functions of the stores.  FastAPI
raising is modelled with `Except`: the handler body either returns a response
or raises an HTTPException, and the catch-all `except Exception` clause of the
source (which also catches the HTTPException raised inside the `try` block)
is applied to the result.  Python renders `str(e)` of a FastAPI/Starlette
HTTPException as `"<code>: <detail>"`.
-/

/-- The exceptions the modelled handler bodies can raise. -/
inductive PyErr where
  | httpException (code : Nat) (detail : String)
  deriving DecidableEq, Repr

/-- Python str() of the modelled exceptions; Starlette renders an
HTTPException as `"<status_code>: <detail>"`. -/
def pyStr : PyErr → String
  | PyErr.httpException c d => toString c ++ ": " ++ d

/-- Rendering of a job status as the string stored in DynamoDB. -/
def statusStr : JobStatus → String
  | JobStatus.queued => "queued"
  | JobStatus.downloading => "downloading"
  | JobStatus.transcribing => "transcribing"
  | JobStatus.generating_note => "generating_note"
  | JobStatus.completed => "completed"
  | JobStatus.error => "error"

/-- HTTP outcome of the status endpoint: a success JSON body or an HTTP
error with a status code and detail. -/
inductive StatusResp where
  | ok (job_id : String) (status : String) (file_name : String)
  | err (code : Nat) (detail : String)
  deriving DecidableEq, Repr

/-- Endpoint GET /status/(job_id) (api/app.py lines 92-114).  The body reads
the Job Store; an absent item raises HTTPException(404).  The source wraps
the whole body in `try: ... except Exception as e:` which catches that
HTTPException too, re-raising 404 only when `str(e)` starts with
`"An error occurred (ResourceNotFoundException)"` and 500 with detail
`str(e)` otherwise. -/
def check_status (jobs : JobStore) (jid : String) : StatusResp :=
  let body : Except PyErr StatusResp :=
    match jobs jid with
    | none => Except.error (PyErr.httpException 404 "Job not found")
    | some r =>
        Except.ok (StatusResp.ok jid (statusStr r.job_status)
          (r.file_name.getD ""))
  match body with
  | Except.ok v => v
  | Except.error e =>
      if (pyStr e).startsWith "An error occurred (ResourceNotFoundException)"
      then StatusResp.err 404 "Job not found"
      else StatusResp.err 500 (pyStr e)

/-- HTTP outcome of the result endpoint: the three success JSON shapes the
source can return, or an HTTP error. -/
inductive ResultResp where
  | notDone (job_id : String) (status : String) (message : String)
  | txOnly (job_id : String) (status : String) (transcription : String)
      (message : String)
  | full (job_id : String) (status : String) (transcription : String)
      (diary_note : String)
  | err (code : Nat) (detail : String)
  deriving DecidableEq, Repr

/-- Endpoint GET /result/(job_id) (api/app.py lines 116-160).  An absent Job
record raises HTTPException(404) inside the same catch-all `try` as in
check_status; a non-completed job returns its status with message
"Processing not yet complete"; a completed job with no Note record returns
the transcription with message "Note generation pending"; otherwise both
transcription and diary note are returned. -/
def get_result (jobs : JobStore) (notes : NoteStore) (jid : String) :
    ResultResp :=
  let body : Except PyErr ResultResp :=
    match jobs jid with
    | none => Except.error (PyErr.httpException 404 "Job not found")
    | some r =>
        if r.job_status ≠ JobStatus.completed then
          Except.ok (ResultResp.notDone jid (statusStr r.job_status)
            "Processing not yet complete")
        else
          match notes jid with
          | none =>
              Except.ok (ResultResp.txOnly jid "completed"
                (r.transcription.getD "") "Note generation pending")
          | some n =>
              Except.ok (ResultResp.full jid "completed"
                (r.transcription.getD "") n.diary_note)
  match body with
  | Except.ok v => v
  | Except.error e =>
      if (pyStr e).startsWith "An error occurred (ResourceNotFoundException)"
      then ResultResp.err 404 "Job not found"
      else ResultResp.err 500 (pyStr e)


/-! ### Derived notions used by the verified properties -/

/-- Position of a status in the pipeline order
queued → downloading → transcribing → generating_note → completed; `error`
is placed after `completed` so that a step into `error` from any earlier
status counts as an advance. -/
def rank : JobStatus → Nat
  | JobStatus.queued => 0
  | JobStatus.downloading => 1
  | JobStatus.transcribing => 2
  | JobStatus.generating_note => 3
  | JobStatus.completed => 4
  | JobStatus.error => 5

/-- One allowed step between successive written statuses: the first is
non-terminal and the second lies strictly later in the pipeline order
(which includes the step into `error` from any non-terminal status). -/
def advanceOK (a b : JobStatus) : Bool :=
  !(isTerminal a) && decide (rank a < rank b)

/-- All consecutive pairs of a written-status sequence are allowed steps;
in particular a terminal status can only appear as the last write. -/
def chainOK : List JobStatus → Bool
  | [] => true
  | [_] => true
  | a :: b :: rest => advanceOK a b && chainOK (b :: rest)

/-- The sequence of Job Store status writes applied during a run, in
program order. -/
def statusTrace (t : List Ev) : List JobStatus :=
  t.filterMap (fun e =>
    match e with
    | Ev.statusWrite s => some s
    | _ => none)

/-- Number of terminal statuses among the applied status writes. -/
def countTerminal (l : List JobStatus) : Nat :=
  (l.filter (fun s => isTerminal s)).length

/-! ### Concrete fixtures used by counterexamples and witnesses -/

/-- An environment in which every external call and every store write
succeeds. -/
def envAllOk : WEnv :=
  ⟨true, true, "", true, true, "", "dear diary today was fine", true, true,
   "a generated note", "", true, true, true, 42⟩

/-- Environment whose only fault is that the Note Store put_item raises
(worker.py line 123), which also skips the completed write sharing its
try block. -/
def envNoNotePut : WEnv := { envAllOk with wNotePut := false }

/-- Environment whose only fault is that the completed status write raises
(worker.py line 132), after a successful Note Store put_item. -/
def envNoCompleted : WEnv := { envAllOk with wCompleted := false }

/-- Environment where the blob fetch fails and the error status write
succeeds. -/
def envFetchFail : WEnv :=
  { envAllOk with downloadOk := false, downloadErr := "NoSuchKey" }

/-- Environment where the blob fetch fails and the error status write also
raises (worker.py line 146). -/
def envFetchFailSilent : WEnv :=
  { envAllOk with
    downloadOk := false
    downloadErr := "NoSuchKey"
    wError := false }

/-- Environment where only the Note Generator call fails. -/
def envNoteGenFail : WEnv :=
  { envAllOk with noteGenOk := false, noteGenErr := "rate limited" }

/-- Environment where the Note Generator call fails and the completed
status write raises. -/
def envNoteGenFailNoCompleted : WEnv :=
  { envNoteGenFail with wCompleted := false }

/-- A dispatch message body carrying both required fields: the shape the
intake service enqueues. -/
def validMsg (jid fp : String) : Option Body :=
  some (Body.json ⟨some jid, some fp⟩)

/-- A Job Store with one in-progress job and one completed job. -/
def sampleJobs : JobStore := fun k =>
  if k = "J1" then
    some ⟨JobStatus.transcribing, some "a.mp3", some "uploads/J1/a.mp3",
          none, none⟩
  else if k = "J2" then
    some ⟨JobStatus.completed, some "b.mp3", some "uploads/J2/b.mp3",
          some "words", none⟩
  else none

/-- A Job Store holding a single job already in the terminal completed
state. -/
def jobsDone : JobStore := fun k =>
  if k = "J1" then
    some ⟨JobStatus.completed, some "a.mp3", some "uploads/J1/a.mp3",
          some "words", none⟩
  else none

/-- A Job Store holding one completed job, used with an empty Note Store. -/
def jobsOneCompleted : JobStore := fun k =>
  if k = "J7" then
    some ⟨JobStatus.completed, some "c.mp3", some "uploads/J7/c.mp3",
          some "hello world", none⟩
  else none

/-- Recognizes traces whose final two events are the temp-file unlink
followed by the queue delete: the last actions of every processed job. -/
def endsUnlinkDelete : List Ev → Bool
  | [Ev.unlinkCall, Ev.deleteMsg] => true
  | _ :: rest => endsUnlinkDelete rest
  | [] => false

/-! ### Claim theorems -/

set_option maxRecDepth 16384

/-- C1 (amended): for every valid dispatch message, provided the writes that
record a terminal outcome succeed (the Note Store put_item plus the
completed update, and the error update), the worker calls delete_message,
the delete is the last event of the run, and the stored job status at that
point is terminal (completed or error).  As stated originally the claim
fails: see the counterexample, in which the Note Store put_item raises, the
completed write is skipped, and the message is still deleted while the
stored status is generating_note. -/
theorem c1_ack_only_after_terminal (env : WEnv) (jobs : JobStore)
    (notes : NoteStore) (jid fp : String)
    (hnp : env.wNotePut = true) (hc : env.wCompleted = true)
    (he : env.wError = true) :
    (process_message (validMsg jid fp) env jobs notes).deleted = true ∧
    (process_message (validMsg jid fp) env jobs notes).trace.getLast? =
      some Ev.deleteMsg ∧
    ∃ r, (process_message (validMsg jid fp) env jobs notes).jobs jid = some r
      ∧ isTerminal r.job_status = true := by
  cases hwd : env.wDownloading <;> cases hdok : env.downloadOk <;>
    cases hwt : env.wTranscribing <;> cases htok : env.transcribeOk <;>
    cases hwst : env.wStoreTx <;> cases hj : jobs jid <;>
    simp [process_message, validMsg, updStatus, updTx, updErr, notesPut,
      jobMergeStatus, jobMergeTx, jobMergeErr, isTerminal, hwd, hdok, hwt,
      htok, hwst, hnp, hc, he, hj]

/-- Witness for C1 at a concrete input: every store write succeeds and the
message for job J1 is processed. -/
theorem c1_ack_only_after_terminal_witness :
    envAllOk.wNotePut = true ∧ envAllOk.wCompleted = true ∧
    envAllOk.wError = true ∧
    ((process_message (validMsg "J1" "uploads/J1/a.mp3") envAllOk emptyJobs
        emptyNotes).deleted = true ∧
     (process_message (validMsg "J1" "uploads/J1/a.mp3") envAllOk emptyJobs
        emptyNotes).trace.getLast? = some Ev.deleteMsg ∧
     ∃ r, (process_message (validMsg "J1" "uploads/J1/a.mp3") envAllOk
        emptyJobs emptyNotes).jobs "J1" = some r ∧
        isTerminal r.job_status = true) :=
  ⟨rfl, rfl, rfl,
   c1_ack_only_after_terminal envAllOk emptyJobs emptyNotes "J1"
     "uploads/J1/a.mp3" rfl rfl rfl⟩

/-- Counterexample to C1 as stated: when the Note Store put_item raises
(worker.py line 123), the completed update in the same try block is skipped,
yet delete_message still runs; the message is deleted while the durably
stored status is the non-terminal generating_note. -/
theorem c1_counterexample :
    (process_message (validMsg "J1" "uploads/J1/a.mp3") envNoNotePut
      emptyJobs emptyNotes).deleted = true ∧
    (process_message (validMsg "J1" "uploads/J1/a.mp3") envNoNotePut
      emptyJobs emptyNotes).jobs "J1" =
      some ⟨JobStatus.generating_note, none, none,
            some "dear diary today was fine", none⟩ ∧
    isTerminal JobStatus.generating_note = false := by
  refine ⟨by decide, by decide, by decide⟩

/-- C2: the status endpoint does distinguish known jobs (their stored status
is returned), but for an unknown job identifier the HTTPException(404)
raised inside the try block is caught by the catch-all except clause and
re-raised as HTTP 500 with detail "404: Job not found", contradicting the
claimed 404 — the explicit raise of 404 in the source shows the intent, so
this is a code bug. -/
theorem c2_unknown_job_returns_500 :
    check_status sampleJobs "missing-job" =
      StatusResp.err 500 "404: Job not found" ∧
    check_status sampleJobs "J1" = StatusResp.ok "J1" "transcribing" "a.mp3" ∧
    check_status sampleJobs "J2" = StatusResp.ok "J2" "completed" "b.mp3" := by
  refine ⟨by decide, by decide, by decide⟩

/-- C3: a queue message whose body is unparsable JSON, or which lacks the
job_id or file_path field, leaves both stores untouched, is never
acknowledged (delete_message is not called), and produces an empty event
trace; process_message returns False. -/
theorem c3_poison_message_untouched (env : WEnv) (jobs : JobStore)
    (notes : NoteStore) (b : Body) (hb : isPoison b = true) :
    process_message (some b) env jobs notes =
      ⟨jobs, notes, false, false, []⟩ := by
  cases b with
  | invalidJson => rfl
  | json f =>
      obtain ⟨jf, pf⟩ := f
      cases jf <;> cases pf <;> simp [isPoison] at hb <;> rfl

/-- Witness for C3 at a concrete input: a parsed body missing job_id. -/
theorem c3_poison_message_untouched_witness :
    isPoison (Body.json ⟨none, some "uploads/J1/a.mp3"⟩) = true ∧
    process_message (some (Body.json ⟨none, some "uploads/J1/a.mp3"⟩))
      envAllOk emptyJobs emptyNotes =
      ⟨emptyJobs, emptyNotes, false, false, []⟩ :=
  ⟨by decide,
   c3_poison_message_untouched envAllOk emptyJobs emptyNotes _ (by decide)⟩

/-- C4 (amended): for every valid dispatch message whose blob fetch fails,
provided the error-status write succeeds (worker.py line 146) and the
exception text is non-empty, the final Job record has status error with the
non-empty failure detail in its error field, the message is acknowledged
(delete_message runs), and the Note Store is untouched.  As stated
originally the claim fails: see the counterexample, where the error-status
write itself raises and the job is left in status downloading. -/
theorem c4_fetch_failure_error_and_acked (env : WEnv) (jobs : JobStore)
    (notes : NoteStore) (jid fp : String)
    (hdl : env.downloadOk = false) (he : env.wError = true)
    (hne : env.downloadErr ≠ "") :
    (process_message (validMsg jid fp) env jobs notes).deleted = true ∧
    (process_message (validMsg jid fp) env jobs notes).notes = notes ∧
    ∃ r, (process_message (validMsg jid fp) env jobs notes).jobs jid = some r
      ∧ r.job_status = JobStatus.error
      ∧ ∃ d, r.error = some d ∧ d ≠ "" := by
  cases hwd : env.wDownloading <;> cases hj : jobs jid <;>
    simp [process_message, validMsg, updStatus, updErr, jobMergeStatus,
      jobMergeErr, hdl, he, hwd, hj] <;>
    exact hne

/-- Witness for C4 at a concrete input: the fetch of the blob for J1 fails
with a NoSuchKey error and the error write succeeds. -/
theorem c4_fetch_failure_error_and_acked_witness :
    envFetchFail.downloadOk = false ∧ envFetchFail.wError = true ∧
    envFetchFail.downloadErr ≠ "" ∧
    ((process_message (validMsg "J1" "uploads/J1/a.mp3") envFetchFail
        emptyJobs emptyNotes).deleted = true ∧
     (process_message (validMsg "J1" "uploads/J1/a.mp3") envFetchFail
        emptyJobs emptyNotes).notes = emptyNotes ∧
     ∃ r, (process_message (validMsg "J1" "uploads/J1/a.mp3") envFetchFail
        emptyJobs emptyNotes).jobs "J1" = some r
        ∧ r.job_status = JobStatus.error
        ∧ ∃ d, r.error = some d ∧ d ≠ "") :=
  ⟨rfl, rfl, by decide,
   c4_fetch_failure_error_and_acked envFetchFail emptyJobs emptyNotes "J1"
     "uploads/J1/a.mp3" rfl rfl (by decide)⟩

/-- Counterexample to C4 as stated: the blob fetch fails and the error
update also raises (both wrapped in try blocks that log and continue); the
job is left in the non-terminal status downloading with no error field,
although the message is still deleted. -/
theorem c4_counterexample :
    (process_message (validMsg "J1" "uploads/J1/a.mp3") envFetchFailSilent
      emptyJobs emptyNotes).deleted = true ∧
    (process_message (validMsg "J1" "uploads/J1/a.mp3") envFetchFailSilent
      emptyJobs emptyNotes).jobs "J1" =
      some ⟨JobStatus.downloading, none, none, none, none⟩ := by
  refine ⟨by decide, by decide⟩

/-- C5 (amended): for every valid dispatch message where fetch and
transcription succeed but the Note Generator call fails, provided the Note
Store put_item and the completed write succeed, the final Job status is
completed (not error) and the stored Note record text is exactly the
fallback string "Error generating diary note: " followed by the failure
explanation.  As stated originally the claim fails: see the counterexample,
where the completed write raises and the job is left in status
generating_note even though the fallback note was stored. -/
theorem c5_notegen_failure_degraded_completion (env : WEnv)
    (jobs : JobStore) (notes : NoteStore) (jid fp : String)
    (hdl : env.downloadOk = true) (htr : env.transcribeOk = true)
    (hng : env.noteGenOk = false) (hnp : env.wNotePut = true)
    (hc : env.wCompleted = true) :
    (∃ r, (process_message (validMsg jid fp) env jobs notes).jobs jid = some r
       ∧ r.job_status = JobStatus.completed) ∧
    (process_message (validMsg jid fp) env jobs notes).notes jid =
      some ⟨"Error generating diary note: " ++ env.noteGenErr, env.now⟩ := by
  cases hwd : env.wDownloading <;> cases hwt : env.wTranscribing <;>
    cases hwst : env.wStoreTx <;> cases hj : jobs jid <;>
    simp [process_message, validMsg, updStatus, updTx, notesPut,
      jobMergeStatus, jobMergeTx, generate_personal_diary, hdl, htr, hng,
      hnp, hc, hwd, hwt, hwst, hj]

/-- Witness for C5 at a concrete input: the Note Generator fails with a
rate-limit error while all store writes succeed. -/
theorem c5_notegen_failure_degraded_completion_witness :
    envNoteGenFail.downloadOk = true ∧ envNoteGenFail.transcribeOk = true ∧
    envNoteGenFail.noteGenOk = false ∧ envNoteGenFail.wNotePut = true ∧
    envNoteGenFail.wCompleted = true ∧
    ((∃ r, (process_message (validMsg "J1" "uploads/J1/a.mp3") envNoteGenFail
        emptyJobs emptyNotes).jobs "J1" = some r
        ∧ r.job_status = JobStatus.completed) ∧
     (process_message (validMsg "J1" "uploads/J1/a.mp3") envNoteGenFail
        emptyJobs emptyNotes).notes "J1" =
       some ⟨"Error generating diary note: " ++ envNoteGenFail.noteGenErr,
             envNoteGenFail.now⟩) :=
  ⟨rfl, rfl, rfl, rfl, rfl,
   c5_notegen_failure_degraded_completion envNoteGenFail emptyJobs
     emptyNotes "J1" "uploads/J1/a.mp3" rfl rfl rfl rfl rfl⟩

/-- Counterexample to C5 as stated: the Note Generator fails and the
completed status write raises; the fallback note is stored but the final
Job status is generating_note, not completed. -/
theorem c5_counterexample :
    (process_message (validMsg "J1" "uploads/J1/a.mp3")
      envNoteGenFailNoCompleted emptyJobs emptyNotes).jobs "J1" =
      some ⟨JobStatus.generating_note, none, none,
            some "dear diary today was fine", none⟩ ∧
    (process_message (validMsg "J1" "uploads/J1/a.mp3")
      envNoteGenFailNoCompleted emptyJobs emptyNotes).notes "J1" =
      some ⟨"Error generating diary note: rate limited", 42⟩ := by
  refine ⟨by decide, by decide⟩

set_option maxHeartbeats 2000000 in
/-- C6: processing the same valid dispatch message twice in sequence under
the same environment (simulating queue redelivery) leaves the Job Store and
the Note Store in the same final state as processing it once: every store
write is an overwrite keyed by job identifier, so the second run rewrites
the same records. -/
theorem c6_reprocessing_idempotent (env : WEnv) (jobs : JobStore)
    (notes : NoteStore) (jid fp : String) :
    (process_message (validMsg jid fp) env
        (process_message (validMsg jid fp) env jobs notes).jobs
        (process_message (validMsg jid fp) env jobs notes).notes).jobs
      = (process_message (validMsg jid fp) env jobs notes).jobs ∧
    (process_message (validMsg jid fp) env
        (process_message (validMsg jid fp) env jobs notes).jobs
        (process_message (validMsg jid fp) env jobs notes).notes).notes
      = (process_message (validMsg jid fp) env jobs notes).notes := by
  obtain ⟨wd, dok, derr, wt, tok, terr, tx, wst, ngok, ntext, ngerr, wnp, wc,
    we, now⟩ := env
  constructor <;>
    (cases wd <;> cases dok <;> cases wt <;> cases tok <;> cases wst <;>
      cases wnp <;> cases wc <;> cases we <;>
      funext k <;>
      by_cases hk : k = jid <;>
        simp [process_message, validMsg, updStatus, updTx, updErr, notesPut,
          jobMergeStatus, jobMergeTx, jobMergeErr, generate_personal_diary,
          hk] <;>
        (try (cases jobs jid <;> simp)))

/-- C7 (amended): within a single run of process_message on a valid
dispatch message, the applied Job Store status writes advance strictly
along the order queued, downloading, transcribing, generating_note,
completed — steps may be skipped when an intermediate write fails — with
error written only after a non-terminal status, and a terminal status is
never followed by another status write in that run.  As stated originally,
over the whole store history, the claim fails: see the counterexample, in
which redelivery of the message for an already completed job rewrites its
status to downloading. -/
theorem c7_status_writes_monotone_within_run (env : WEnv) (jobs : JobStore)
    (notes : NoteStore) (jid fp : String) :
    chainOK (statusTrace
      (process_message (validMsg jid fp) env jobs notes).trace) = true := by
  obtain ⟨wd, dok, derr, wt, tok, terr, tx, wst, ngok, ntext, ngerr, wnp, wc,
    we, now⟩ := env
  cases wd <;> cases dok <;> cases wt <;> cases tok <;> cases wst <;>
    cases wnp <;> cases wc <;> cases we <;>
    simp [process_message, validMsg, statusTrace, chainOK, advanceOK,
      isTerminal, rank]

/-- Counterexample to C7 as stated: the Job record of J1 is already in the
terminal completed state; redelivering its dispatch message (here with a
failing blob fetch and a failing error write) makes the worker rewrite the
status to downloading — a worker operation moving a terminal record back to
an earlier state, because no status write is conditional on the current
stored status. -/
theorem c7_counterexample :
    jobsDone "J1" = some ⟨JobStatus.completed, some "a.mp3",
      some "uploads/J1/a.mp3", some "words", none⟩ ∧
    (process_message (validMsg "J1" "uploads/J1/a.mp3") envFetchFailSilent
      jobsDone emptyNotes).jobs "J1" =
      some ⟨JobStatus.downloading, some "a.mp3", some "uploads/J1/a.mp3",
            some "words", none⟩ := by
  refine ⟨by decide, by decide⟩

/-- C8 (amended): for every valid dispatch message, provided the writes
that record a terminal outcome succeed (Note Store put_item, completed
update, error update), the run applies exactly one terminal status write
and the Job record ends in a terminal status.  As stated originally the
claim fails: see the counterexample, in which the completed write raises
and the job reaches no terminal status at all by the time process_message
returns. -/
theorem c8_exactly_one_terminal_status (env : WEnv) (jobs : JobStore)
    (notes : NoteStore) (jid fp : String)
    (hnp : env.wNotePut = true) (hc : env.wCompleted = true)
    (he : env.wError = true) :
    countTerminal (statusTrace
      (process_message (validMsg jid fp) env jobs notes).trace) = 1 ∧
    ∃ r, (process_message (validMsg jid fp) env jobs notes).jobs jid = some r
      ∧ isTerminal r.job_status = true := by
  cases hwd : env.wDownloading <;> cases hdok : env.downloadOk <;>
    cases hwt : env.wTranscribing <;> cases htok : env.transcribeOk <;>
    cases hwst : env.wStoreTx <;> cases hj : jobs jid <;>
    simp [process_message, validMsg, statusTrace, countTerminal, updStatus,
      updTx, updErr, notesPut, jobMergeStatus, jobMergeTx, jobMergeErr,
      isTerminal, hnp, hc, he, hwd, hdok, hwt, htok, hwst, hj]

/-- Witness for C8 at a concrete input: all store writes succeed while the
transcription of job J2 fails, reaching the single terminal status error. -/
theorem c8_exactly_one_terminal_status_witness :
    envAllOk.wNotePut = true ∧ envAllOk.wCompleted = true ∧
    envAllOk.wError = true ∧
    (countTerminal (statusTrace
      (process_message (validMsg "J2" "uploads/J2/b.mp3") envAllOk emptyJobs
        emptyNotes).trace) = 1 ∧
     ∃ r, (process_message (validMsg "J2" "uploads/J2/b.mp3") envAllOk
        emptyJobs emptyNotes).jobs "J2" = some r
        ∧ isTerminal r.job_status = true) :=
  ⟨rfl, rfl, rfl,
   c8_exactly_one_terminal_status envAllOk emptyJobs emptyNotes "J2"
     "uploads/J2/b.mp3" rfl rfl rfl⟩

/-- Counterexample to C8 as stated: the Note Store put_item succeeds but
the completed write raises; no terminal status write is applied in the run
and the final stored status is generating_note, so the job reaches neither
completed nor error although process_message has returned (and deleted the
message). -/
theorem c8_counterexample :
    countTerminal (statusTrace
      (process_message (validMsg "J1" "uploads/J1/a.mp3") envNoCompleted
        emptyJobs emptyNotes).trace) = 0 ∧
    (process_message (validMsg "J1" "uploads/J1/a.mp3") envNoCompleted
      emptyJobs emptyNotes).retVal = true ∧
    (process_message (validMsg "J1" "uploads/J1/a.mp3") envNoCompleted
      emptyJobs emptyNotes).jobs "J1" =
      some ⟨JobStatus.generating_note, none, none,
            some "dear diary today was fine", none⟩ := by
  refine ⟨by decide, by decide, by decide⟩

/-- C9: for every valid dispatch message and every modelled outcome of the
run (success, blob-fetch failure, transcription failure, and any
combination of store-write failures), the last two events of the run are
the temp-file unlink call of the finally block followed by the queue
delete: the temporary local file is released on every exit path before
process_message moves on. -/
theorem c9_temp_file_always_released (env : WEnv) (jobs : JobStore)
    (notes : NoteStore) (jid fp : String) :
    endsUnlinkDelete
      (process_message (validMsg jid fp) env jobs notes).trace = true := by
  obtain ⟨wd, dok, derr, wt, tok, terr, tx, wst, ngok, ntext, ngerr, wnp, wc,
    we, now⟩ := env
  cases wd <;> cases dok <;> cases wt <;> cases tok <;> cases wst <;>
    cases wnp <;> cases wc <;> cases we <;>
    simp [process_message, validMsg, endsUnlinkDelete]

/-- C10: for a job identifier whose Job record is completed while no Note
record exists, the result endpoint does not fail: it returns the stored
transcription together with the message that note generation is pending. -/
theorem c10_completed_without_note_not_error (jobs : JobStore)
    (notes : NoteStore) (jid : String) (r : JobRec)
    (hj : jobs jid = some r) (hs : r.job_status = JobStatus.completed)
    (hn : notes jid = none) :
    get_result jobs notes jid =
      ResultResp.txOnly jid "completed" (r.transcription.getD "")
        "Note generation pending" := by
  simp [get_result, hj, hs, hn]

/-- Witness for C10 at a concrete input: job J7 is completed and the Note
Store is empty. -/
theorem c10_completed_without_note_not_error_witness :
    jobsOneCompleted "J7" = some ⟨JobStatus.completed, some "c.mp3",
      some "uploads/J7/c.mp3", some "hello world", none⟩ ∧
    (⟨JobStatus.completed, some "c.mp3", some "uploads/J7/c.mp3",
      some "hello world", none⟩ : JobRec).job_status = JobStatus.completed ∧
    emptyNotes "J7" = none ∧
    get_result jobsOneCompleted emptyNotes "J7" =
      ResultResp.txOnly "J7" "completed"
        (Option.getD (some "hello world") "") "Note generation pending" :=
  ⟨by decide, rfl, rfl,
   c10_completed_without_note_not_error jobsOneCompleted emptyNotes "J7"
     ⟨JobStatus.completed, some "c.mp3", some "uploads/J7/c.mp3",
      some "hello world", none⟩ (by decide) rfl rfl⟩
